import Mathlib

/-!
Verification development for the fast-graph physics core
(`src/rust-core/src/renderer.rs` and `src/rust-core/src/lib.rs`).

The WGSL compute shader `PHYSICS_SHADER` and the Rust host code are
shallowly embedded here.  32-bit floats are modelled as real numbers,
`u32`/`i32` loop indices as `Nat`/`Int`, GPU storage arrays as lists or
functions, and the data-parallel dispatches as index-driven maps over the
node list.  A grid cell's fixed 32-slot index array is modelled by the
list of its live entries (the slots below the occupancy count, which are
the only slots the shader ever reads); the occupancy counter itself is
kept separately and may exceed 32, exactly as in the shader.
-/

/-- WGSL struct `NodeData` (renderer.rs lines 14-27): the 12-field record the
physics shader reads and writes for every node. -/
structure ShaderNodeData where
  x : ℝ
  y : ℝ
  vx : ℝ
  vy : ℝ
  fx : ℝ
  fy : ℝ
  r : ℝ
  g : ℝ
  b : ℝ
  a : ℝ
  size : ℝ
  mass : ℝ

instance : Inhabited ShaderNodeData := ⟨⟨0, 0, 0, 0, 0, 0, 0, 0, 0, 0, 0, 0⟩⟩

/-- Rust struct `NodeData` (lib.rs lines 8-17): the 7-field host-side node
record produced by `set_nodes` and consumed by the renderer. -/
structure NodeData where
  x : ℝ
  y : ℝ
  r : ℝ
  g : ℝ
  b : ℝ
  a : ℝ
  size : ℝ

instance : Inhabited NodeData := ⟨⟨0, 0, 0, 0, 0, 0, 0⟩⟩

/-- Rust struct `EdgeData` (lib.rs lines 20-31), identical to the WGSL
`EdgeData` record (renderer.rs lines 29-39). -/
structure EdgeData where
  x1 : ℝ
  y1 : ℝ
  x2 : ℝ
  y2 : ℝ
  r : ℝ
  g : ℝ
  b : ℝ
  a : ℝ
  width : ℝ

instance : Inhabited EdgeData := ⟨⟨0, 0, 0, 0, 0, 0, 0, 0, 0⟩⟩

/-- WGSL struct `PhysicsParams` (renderer.rs lines 41-50). -/
structure PhysicsParams where
  delta_time : ℝ
  damping_factor : ℝ
  spring_constant : ℝ
  rest_length : ℝ
  repulsion_strength : ℝ
  repulsion_radius : ℝ
  node_count : ℕ
  edge_count : ℕ

/-- `const GRID_SIZE: u32 = 32u;` (renderer.rs line 62). -/
def GRID_SIZE : ℕ := 32

/-- `const WORLD_MIN: f32 = -1.0;` (renderer.rs line 63). -/
def WORLD_MIN : ℝ := -1.0

/-- `const WORLD_MAX: f32 = 1.0;` (renderer.rs line 64). -/
def WORLD_MAX : ℝ := 1.0

/-- `const WORLD_SIZE: f32 = 2.0;` (renderer.rs line 65). -/
def WORLD_SIZE : ℝ := 2.0

/-- `pub const MAX_NODES: usize = 100_000;` (renderer.rs line 205). -/
def MAX_NODES : ℕ := 100000

/-- `pub const MAX_EDGES: usize = 200_000;` (renderer.rs line 206). -/
def MAX_EDGES : ℕ := 200000

/-- `const FLOATS_PER_NODE: usize = 12;` (renderer.rs line 207). -/
def FLOATS_PER_NODE : ℕ := 12

/-- `const FLOATS_PER_EDGE: usize = 9;` (renderer.rs line 208). -/
def FLOATS_PER_EDGE : ℕ := 9

/-- WGSL `get_grid_cell` (renderer.rs lines 67-71): normalize the position
over the world domain, clamp into `[0, 0.999]`, scale by the grid size and
truncate.  The clamped value is nonnegative, so the WGSL `u32` truncation
agrees with `Int.floor` followed by `Int.toNat`. -/
noncomputable def get_grid_cell (pos : ℝ × ℝ) : ℕ × ℕ :=
  let nx := (pos.1 - WORLD_MIN) / WORLD_SIZE
  let ny := (pos.2 - WORLD_MIN) / WORLD_SIZE
  let cx := min (max nx 0) 0.999
  let cy := min (max ny 0) 0.999
  ((Int.floor (cx * (GRID_SIZE : ℝ))).toNat, (Int.floor (cy * (GRID_SIZE : ℝ))).toNat)

/-- WGSL `get_grid_index` (renderer.rs lines 73-75): `y * GRID_SIZE + x`. -/
def get_grid_index (gp : ℕ × ℕ) : ℕ := gp.2 * GRID_SIZE + gp.1

/-- Distance between two shader nodes, exactly the expression computed inside
WGSL `calculate_repulsion_force` (renderer.rs lines 78-80). -/
noncomputable def nodeDist (node_a node_b : ShaderNodeData) : ℝ :=
  Real.sqrt ((node_b.x - node_a.x) * (node_b.x - node_a.x) +
    (node_b.y - node_a.y) * (node_b.y - node_a.y))

open Classical in
/-- WGSL `calculate_repulsion_force` (renderer.rs lines 77-92). -/
noncomputable def calculate_repulsion_force (p : PhysicsParams)
    (node_a node_b : ShaderNodeData) : ℝ × ℝ :=
  let dx := node_b.x - node_a.x
  let dy := node_b.y - node_a.y
  let dist := Real.sqrt (dx * dx + dy * dy)
  if dist > p.repulsion_radius ∨ dist < 0.001 then (0, 0)
  else
    let min_dist := max dist 0.01
    let force_magnitude := p.repulsion_strength / (min_dist * min_dist)
    let nx := -dx / dist
    let ny := -dy / dist
    (nx * force_magnitude, ny * force_magnitude)

/-- A grid cell (WGSL `GridCell`, renderer.rs lines 52-55): `node_indices`
models the live prefix of the 32-slot index array (the entries at slots
below `min node_count 32`, the only slots later passes read), and
`node_count` the atomic occupancy counter, which may exceed 32. -/
structure GridCell where
  node_indices : List ℕ
  node_count : ℕ

instance : Inhabited GridCell := ⟨⟨[], 0⟩⟩

/-- WGSL `clear_grid` entry point (renderer.rs lines 96-104): every cell's
occupancy count is zeroed, which empties its live prefix. -/
def clear_grid : ℕ → GridCell := fun _ => ⟨[], 0⟩

/-- The body of the atomic insert in WGSL `assign_to_grid` (renderer.rs lines
119-124): bump the counter, and record the index only when the pre-increment
count was below the 32-slot capacity. -/
def assign_push (i : ℕ) (c : GridCell) : GridCell :=
  { node_indices := if c.node_count < 32 then c.node_indices ++ [i] else c.node_indices,
    node_count := c.node_count + 1 }

/-- One thread of WGSL `assign_to_grid` (renderer.rs lines 107-125): a thread
whose index is at least `node_count` returns; otherwise the node is pushed
into its cell. -/
noncomputable def assign_one (p : PhysicsParams) (i : ℕ) (n : ShaderNodeData)
    (g : ℕ → GridCell) : ℕ → GridCell :=
  if p.node_count ≤ i then g
  else
    let gi := get_grid_index (get_grid_cell (n.x, n.y))
    fun j => if j = gi then assign_push i (g gi) else g j

/-- The full `assign_to_grid` dispatch over the node buffer, threads taken in
index order (the per-cell atomics admit some linearization; the properties
proved below do not depend on the order chosen). -/
noncomputable def assign_to_grid (p : PhysicsParams) :
    ℕ → List ShaderNodeData → (ℕ → GridCell) → (ℕ → GridCell)
  | _, [], g => g
  | i, n :: ns, g => assign_to_grid p (i + 1) ns (assign_one p i n g)

/-- The inner loop of WGSL `calculate_repulsion` (renderer.rs lines 155-163):
fold over the live entries of one cell (the shader reads at most the first 32
slots), skipping the node itself, and subtract each repulsion force from the
accumulator. -/
noncomputable def repulsion_cell_scan (p : PhysicsParams)
    (nodes : List ShaderNodeData) (node_index : ℕ) (node : ShaderNodeData)
    (cell : GridCell) (acc : ℝ × ℝ) : ℝ × ℝ :=
  List.foldl (fun t other =>
    if other ≠ node_index then
      let f := calculate_repulsion_force p node (nodes.getD other default)
      (t.1 - f.1, t.2 - f.2)
    else t) acc (cell.node_indices.take 32)

open Classical in
/-- The 3x3 neighborhood scan of WGSL `calculate_repulsion` (renderer.rs lines
137-166): outer loop over `dy`, inner loop over `dx`, bounds check, then the
per-cell scan. -/
noncomputable def repulsion_total (p : PhysicsParams) (g : ℕ → GridCell)
    (nodes : List ShaderNodeData) (node_index : ℕ) (node : ShaderNodeData) : ℝ × ℝ :=
  let grid_pos := get_grid_cell (node.x, node.y)
  List.foldl (fun acc dy =>
    List.foldl (fun acc2 dx =>
      let cx : ℤ := (grid_pos.1 : ℤ) + dx
      let cy : ℤ := (grid_pos.2 : ℤ) + dy
      if 0 ≤ cx ∧ cx < 32 ∧ 0 ≤ cy ∧ cy < 32 then
        repulsion_cell_scan p nodes node_index node
          (g (get_grid_index (cx.toNat, cy.toNat))) acc2
      else acc2) acc ([-1, 0, 1] : List ℤ)) ((0 : ℝ), (0 : ℝ)) ([-1, 0, 1] : List ℤ)

/-- A data-parallel dispatch: thread `i` rewrites node `i` of the buffer. -/
def run_kernel (f : ℕ → ShaderNodeData → ShaderNodeData) :
    ℕ → List ShaderNodeData → List ShaderNodeData
  | _, [] => []
  | i, n :: ns => f i n :: run_kernel f (i + 1) ns

/-- WGSL `calculate_repulsion` entry point (renderer.rs lines 128-171):
threads with index at least `node_count` return, the rest add the scanned
total into the node's force accumulator. -/
noncomputable def calculate_repulsion_pass (p : PhysicsParams) (g : ℕ → GridCell)
    (nodes : List ShaderNodeData) : List ShaderNodeData :=
  run_kernel (fun i n =>
    if p.node_count ≤ i then n
    else
      let total := repulsion_total p g nodes i n
      { n with fx := n.fx + total.1, fy := n.fy + total.2 }) 0 nodes

/-- One thread of WGSL `integrate_physics` (renderer.rs lines 175-201):
`v += f * dt`, then `v *= damping`, then `x += v * dt`, then the force
accumulator is reset. -/
def integrate_node (p : PhysicsParams) (node : ShaderNodeData) : ShaderNodeData :=
  let vx1 := node.vx + node.fx * p.delta_time
  let vy1 := node.vy + node.fy * p.delta_time
  let vx2 := vx1 * p.damping_factor
  let vy2 := vy1 * p.damping_factor
  let x1 := node.x + vx2 * p.delta_time
  let y1 := node.y + vy2 * p.delta_time
  { node with x := x1, y := y1, vx := vx2, vy := vy2, fx := 0, fy := 0 }

/-- The `integrate_physics` dispatch (guard on `node_count` included). -/
def integrate_pass (p : PhysicsParams) (nodes : List ShaderNodeData) :
    List ShaderNodeData :=
  run_kernel (fun i n => if p.node_count ≤ i then n else integrate_node p n) 0 nodes

/-- The GPU branch of `Renderer::integrate_physics` (renderer.rs lines
948-987): the four dispatches clear-grid, assign-to-grid, repulsion,
integrate, in order, within one synchronized compute pass.  The edge buffer
is uploaded (renderer.rs lines 942-946) but no compute entry point reads it,
so the result does not depend on `edges`. -/
noncomputable def physics_step (p : PhysicsParams) (nodes : List ShaderNodeData)
    (edges : List EdgeData) : List ShaderNodeData :=
  let g := assign_to_grid p 0 nodes clear_grid
  integrate_pass p (calculate_repulsion_pass p g nodes)

/-- The no-compute branch of `Renderer::integrate_physics` (renderer.rs lines
988-992): a diagnostic is logged and `Ok(())` is returned; the node slice is
not touched. -/
def cpu_fallback_step (p : PhysicsParams) (nodes : List ShaderNodeData)
    (edges : List EdgeData) : List ShaderNodeData :=
  nodes

/-- `Renderer::integrate_physics` (renderer.rs lines 912-993): selects the
GPU path when all compute pipelines exist, the fallback otherwise; the
boolean component records that `Ok(())` is returned on both paths. -/
noncomputable def integrate_physics_call (has_compute : Bool) (p : PhysicsParams)
    (nodes : List ShaderNodeData) (edges : List EdgeData) :
    List ShaderNodeData × Bool :=
  if has_compute then (physics_step p nodes edges, true)
  else (cpu_fallback_step p nodes edges, true)

/-- `FastGraphRenderer::set_nodes` (lib.rs lines 175-198): the previous list
is cleared, then for each `i` below `len / 7` a 7-float record
`x, y, r, g, b, a, size` is pushed when it fits; any trailing partial record
is ignored.  The value is the new contents of `self.nodes`. -/
def set_nodes (node_data : List ℝ) : List NodeData :=
  (List.range (node_data.length / 7)).filterMap fun i =>
    let base := i * 7
    if base + 7 ≤ node_data.length then
      some { x := node_data.getD base 0, y := node_data.getD (base + 1) 0,
             r := node_data.getD (base + 2) 0, g := node_data.getD (base + 3) 0,
             b := node_data.getD (base + 4) 0, a := node_data.getD (base + 5) 0,
             size := node_data.getD (base + 6) 0 }
    else none

/-- `FastGraphRenderer::set_edges` (lib.rs lines 200-226): stride 9, field
order `x1, y1, x2, y2, r, g, b, a, width`. -/
def set_edges (edge_data : List ℝ) : List EdgeData :=
  (List.range (edge_data.length / 9)).filterMap fun i =>
    let base := i * 9
    if base + 9 ≤ edge_data.length then
      some { x1 := edge_data.getD base 0, y1 := edge_data.getD (base + 1) 0,
             x2 := edge_data.getD (base + 2) 0, y2 := edge_data.getD (base + 3) 0,
             r := edge_data.getD (base + 4) 0, g := edge_data.getD (base + 5) 0,
             b := edge_data.getD (base + 6) 0, a := edge_data.getD (base + 7) 0,
             width := edge_data.getD (base + 8) 0 }
    else none

/-- `FastGraphRenderer::get_current_node_count` (lib.rs lines 269-272). -/
def get_current_node_count (nodes : List NodeData) : ℕ := nodes.length

/-- `FastGraphRenderer::get_current_edge_count` (lib.rs lines 274-277). -/
def get_current_edge_count (edges : List EdgeData) : ℕ := edges.length

/-- The nodes the render pass actually draws (renderer.rs line 1119:
`nodes.iter().take(MAX_NODES)`). -/
def render_nodes_processed (nodes : List NodeData) : List NodeData :=
  nodes.take MAX_NODES

/-- Whether the render pass emits the node-overflow warning log
(renderer.rs lines 1112-1115). -/
def render_node_overflow_warning (nodes : List NodeData) : Bool :=
  decide (MAX_NODES < nodes.length)

/-- The node instance count passed to `draw` (renderer.rs line 1148:
`nodes.len().min(MAX_NODES)`). -/
def render_node_draw_count (nodes : List NodeData) : ℕ :=
  min nodes.length MAX_NODES

/-- The edges the render pass actually draws (renderer.rs line 1082). -/
def render_edges_processed (edges : List EdgeData) : List EdgeData :=
  edges.take MAX_EDGES

/-- Whether the render pass emits the edge-overflow warning log
(renderer.rs lines 1074-1078). -/
def render_edge_overflow_warning (edges : List EdgeData) : Bool :=
  decide (MAX_EDGES < edges.length)

/-- The edge instance count passed to `draw` (renderer.rs line 1104). -/
def render_edge_draw_count (edges : List EdgeData) : ℕ :=
  min edges.length MAX_EDGES

/-- `std::mem::size_of::<NodeData>()` for the host record of 7 `f32` fields
(lib.rs lines 8-17): 28 bytes. -/
def size_of_NodeData : ℕ := 28

/-- Size of the node physics storage buffer,
`MAX_NODES * std::mem::size_of::<NodeData>()` (renderer.rs line 433). -/
def node_physics_buffer_size : ℕ := MAX_NODES * size_of_NodeData

/-- Bytes written into the node physics buffer by
`queue.write_buffer(node_physics_buffer, 0, bytemuck::cast_slice(nodes))`
(renderer.rs line 939): the whole slice, with no truncation. -/
def node_physics_upload_bytes (nodes : List NodeData) : ℕ :=
  nodes.length * size_of_NodeData

/-- The flat float image of one host `NodeData` record, in declaration order
(lib.rs lines 8-17): 7 values. -/
def hostNodeFloats (n : NodeData) : List ℝ :=
  [n.x, n.y, n.r, n.g, n.b, n.a, n.size]

/-- The contents of the node physics buffer after the host upload: the raw
concatenation of the 7-float host records (renderer.rs line 939). -/
def write_node_buffer (nodes : List NodeData) : List ℝ :=
  (nodes.map hostNodeFloats).flatten

/-- The flat float image of one WGSL `NodeData` record, in declaration order
(renderer.rs lines 14-27): 12 values. -/
def shaderNodeFloats (n : ShaderNodeData) : List ℝ :=
  [n.x, n.y, n.vx, n.vy, n.fx, n.fy, n.r, n.g, n.b, n.a, n.size, n.mass]

/-- How the physics shader reads record `i` out of the storage buffer: twelve
consecutive floats starting at offset `12 * i` (renderer.rs lines 14-27;
out-of-range reads are modelled as zero). -/
def read_shader_node (buf : List ℝ) (i : ℕ) : ShaderNodeData :=
  { x := buf.getD (12 * i) 0, y := buf.getD (12 * i + 1) 0,
    vx := buf.getD (12 * i + 2) 0, vy := buf.getD (12 * i + 3) 0,
    fx := buf.getD (12 * i + 4) 0, fy := buf.getD (12 * i + 5) 0,
    r := buf.getD (12 * i + 6) 0, g := buf.getD (12 * i + 7) 0,
    b := buf.getD (12 * i + 8) 0, a := buf.getD (12 * i + 9) 0,
    size := buf.getD (12 * i + 10) 0, mass := buf.getD (12 * i + 11) 0 }

open Classical in
/-- The order in which nodes of the dispatch arrive at grid cell `j`:
node `i` (when below `node_count`) arrives at the cell its position hashes
to.  This is the specification-side description of the assignment pass used
to state the capacity theorem. -/
noncomputable def cell_arrivals (p : PhysicsParams) :
    ℕ → List ShaderNodeData → ℕ → List ℕ
  | _, [], _ => []
  | i, n :: ns, j =>
    (if i < p.node_count ∧ get_grid_index (get_grid_cell (n.x, n.y)) = j
      then [i] else []) ++ cell_arrivals p (i + 1) ns j

/-- Concrete node at the origin, unit mass, at rest. -/
def nodeI : ShaderNodeData := ⟨0, 0, 0, 0, 0, 0, 0, 0, 0, 0, 0, 1⟩

/-- Concrete node at `(0.05, 0)`, unit mass, at rest: close enough to
`nodeI` to share its grid cell and lie inside the repulsion radius below. -/
def nodeJ : ShaderNodeData := ⟨0.05, 0, 0, 0, 0, 0, 0, 0, 0, 0, 0, 1⟩

/-- Concrete node at `(3, 4)`: at distance 5 from the origin, beyond the
repulsion radius below. -/
def nodeFar : ShaderNodeData := ⟨3, 4, 0, 0, 0, 0, 0, 0, 0, 0, 0, 1⟩

/-- Concrete parameters: `dt = 1`, `damping = 1`, `spring_constant = 0`,
`rest_length = 0`, `repulsion_strength = 1`, `repulsion_radius = 2`,
two nodes, no edges. -/
def paramsIJ : PhysicsParams := ⟨1, 1, 0, 0, 1, 2, 2, 0⟩

/-- Concrete node at `(-0.5, 0)`, at rest. -/
def nodeL : ShaderNodeData := ⟨-0.5, 0, 0, 0, 0, 0, 0, 0, 0, 0, 0, 1⟩

/-- Concrete node at `(0.5, 0)`, at rest. -/
def nodeR : ShaderNodeData := ⟨0.5, 0, 0, 0, 0, 0, 0, 0, 0, 0, 0, 1⟩

/-- Concrete parameters with a positive spring constant: `dt = 1`,
`damping = 1`, `spring_constant = 1`, `rest_length = 0`,
`repulsion_strength = 1`, `repulsion_radius = 0`, two nodes, one edge. -/
def paramsSpring : PhysicsParams := ⟨1, 1, 1, 0, 1, 0, 2, 1⟩

/-- The edge joining `nodeL` and `nodeR`. -/
def edgeLR : EdgeData := ⟨-0.5, 0, 0.5, 0, 0, 0, 0, 0, 1⟩

/-- Concrete parameters for the integrator example: `dt = 1`, `damping = 1`,
no forces, one node. -/
def paramsDrift : PhysicsParams := ⟨1, 1, 0, 0, 0, 0, 1, 0⟩

/-- Concrete node for the integrator example: at the origin with velocity
`(1, 0)` and no accumulated force. -/
def nodeDrift : ShaderNodeData := ⟨0, 0, 1, 0, 0, 0, 0, 0, 0, 0, 0, 1⟩

/-- Concrete host node records with pairwise distinct field values. -/
def hostNodeA : NodeData := ⟨1, 2, 3, 4, 5, 6, 7⟩

/-- Second concrete host node record, fields `8` through `14`. -/
def hostNodeB : NodeData := ⟨8, 9, 10, 11, 12, 13, 14⟩

lemma run_kernel_getD (f : ℕ → ShaderNodeData → ShaderNodeData) :
    ∀ (ns : List ShaderNodeData) (k i : ℕ) (d : ShaderNodeData), i < ns.length →
      (run_kernel f k ns).getD i d = f (k + i) (ns.getD i d) := by
  intro ns
  induction ns with
  | nil => intro k i d h; simp at h
  | cons n t ih =>
    intro k i d h
    cases i with
    | zero => simp [run_kernel]
    | succ j =>
      have hj : j < t.length := by simpa using h
      simp only [run_kernel, List.getD_cons_succ]
      rw [ih (k + 1) j d hj]
      congr 1
      omega

lemma filterMap_guard_eq_map {α β : Type _} (Q : α → Prop) [DecidablePred Q] (f : α → β) :
    ∀ l : List α, (∀ x ∈ l, Q x) →
      (l.filterMap fun x => if Q x then some (f x) else none) = l.map f := by
  intro l
  induction l with
  | nil => intro _; rfl
  | cons x t ih =>
    intro hl
    rw [List.filterMap_cons, if_pos (hl x (by simp)), List.map_cons,
      ih (fun y hy => hl y (by simp [hy]))]

lemma getD_map_range {β : Type _} (f : ℕ → β) (n i : ℕ) (h : i < n) (d : β) :
    ((List.range n).map f).getD i d = f i := by
  rw [List.getD_eq_getElem?_getD, List.getElem?_map, List.getElem?_range h]
  rfl

lemma set_nodes_eq_map (data : List ℝ) :
    set_nodes data = (List.range (data.length / 7)).map (fun i =>
      { x := data.getD (i * 7) 0, y := data.getD (i * 7 + 1) 0,
        r := data.getD (i * 7 + 2) 0, g := data.getD (i * 7 + 3) 0,
        b := data.getD (i * 7 + 4) 0, a := data.getD (i * 7 + 5) 0,
        size := data.getD (i * 7 + 6) 0 }) := by
  simp only [set_nodes]
  exact filterMap_guard_eq_map (fun i => i * 7 + 7 ≤ data.length) _ _ (fun i hi => by
    have h1 : i < data.length / 7 := List.mem_range.mp hi
    have h2 : data.length / 7 * 7 ≤ data.length := Nat.div_mul_le_self _ _
    omega)

lemma set_edges_eq_map (data : List ℝ) :
    set_edges data = (List.range (data.length / 9)).map (fun i =>
      { x1 := data.getD (i * 9) 0, y1 := data.getD (i * 9 + 1) 0,
        x2 := data.getD (i * 9 + 2) 0, y2 := data.getD (i * 9 + 3) 0,
        r := data.getD (i * 9 + 4) 0, g := data.getD (i * 9 + 5) 0,
        b := data.getD (i * 9 + 6) 0, a := data.getD (i * 9 + 7) 0,
        width := data.getD (i * 9 + 8) 0 }) := by
  simp only [set_edges]
  exact filterMap_guard_eq_map (fun i => i * 9 + 9 ≤ data.length) _ _ (fun i hi => by
    have h1 : i < data.length / 9 := List.mem_range.mp hi
    have h2 : data.length / 9 * 9 ≤ data.length := Nat.div_mul_le_self _ _
    omega)

lemma set_nodes_length (data : List ℝ) : (set_nodes data).length = data.length / 7 := by
  rw [set_nodes_eq_map]; simp

lemma set_edges_length (data : List ℝ) : (set_edges data).length = data.length / 9 := by
  rw [set_edges_eq_map]; simp

/-- C10: `set_nodes` keeps exactly `len / 7` nodes with fields taken from
elements `7i..7i+7` in the order `x, y, r, g, b, a, size` (trailing partial
records ignored, since only full strides are produced); `set_edges` does the
same with stride 9 and field order `x1, y1, x2, y2, r, g, b, a, width`; the
count queries return exactly these quotients. -/
theorem set_nodes_set_edges_stride :
    ∀ (node_data edge_data : List ℝ),
      get_current_node_count (set_nodes node_data) = node_data.length / 7 ∧
      get_current_edge_count (set_edges edge_data) = edge_data.length / 9 ∧
      (∀ i, i < node_data.length / 7 →
        (set_nodes node_data).getD i default =
          { x := node_data.getD (i * 7) 0, y := node_data.getD (i * 7 + 1) 0,
            r := node_data.getD (i * 7 + 2) 0, g := node_data.getD (i * 7 + 3) 0,
            b := node_data.getD (i * 7 + 4) 0, a := node_data.getD (i * 7 + 5) 0,
            size := node_data.getD (i * 7 + 6) 0 }) ∧
      (∀ i, i < edge_data.length / 9 →
        (set_edges edge_data).getD i default =
          { x1 := edge_data.getD (i * 9) 0, y1 := edge_data.getD (i * 9 + 1) 0,
            x2 := edge_data.getD (i * 9 + 2) 0, y2 := edge_data.getD (i * 9 + 3) 0,
            r := edge_data.getD (i * 9 + 4) 0, g := edge_data.getD (i * 9 + 5) 0,
            b := edge_data.getD (i * 9 + 6) 0, a := edge_data.getD (i * 9 + 7) 0,
            width := edge_data.getD (i * 9 + 8) 0 }) := by
  intro node_data edge_data
  refine ⟨?_, ?_, ?_, ?_⟩
  · rw [get_current_node_count, set_nodes_length]
  · rw [get_current_edge_count, set_edges_length]
  · intro i hi
    rw [set_nodes_eq_map, getD_map_range _ _ _ hi]
  · intro i hi
    rw [set_edges_eq_map, getD_map_range _ _ _ hi]

/-- Witness for C10: eight floats yield exactly one node (the trailing float
is ignored), with the fields in input order; ten floats yield one edge. -/
theorem set_nodes_set_edges_stride_witness :
    get_current_node_count (set_nodes [1, 2, 3, 4, 5, 6, 7, 8]) = 1 ∧
    (set_nodes [1, 2, 3, 4, 5, 6, 7, 8]).getD 0 default = ⟨1, 2, 3, 4, 5, 6, 7⟩ ∧
    get_current_edge_count (set_edges [1, 2, 3, 4, 5, 6, 7, 8, 9, 10]) = 1 ∧
    (set_edges [1, 2, 3, 4, 5, 6, 7, 8, 9, 10]).getD 0 default =
      ⟨1, 2, 3, 4, 5, 6, 7, 8, 9⟩ := by
  refine ⟨(set_nodes_set_edges_stride [1, 2, 3, 4, 5, 6, 7, 8] []).1,
    (set_nodes_set_edges_stride [1, 2, 3, 4, 5, 6, 7, 8] []).2.2.1 0 (by norm_num),
    (set_nodes_set_edges_stride [] [1, 2, 3, 4, 5, 6, 7, 8, 9, 10]).2.1,
    (set_nodes_set_edges_stride [] [1, 2, 3, 4, 5, 6, 7, 8, 9, 10]).2.2.2 0 (by norm_num)⟩

/-- C6 (amended): only the render path truncates — it draws exactly
`min(count, maximum)` node/edge instances, processing the first `maximum`
records, emits the overflow warning exactly when the maximum is exceeded,
and never rejects the input; at `maximum + 1` submitted nodes it processes
exactly the maximum.  (`set_nodes` itself and the physics-buffer upload
perform no truncation; see the counterexample.) -/
theorem render_truncates_to_maximum :
    ∀ (nodes : List NodeData) (edges : List EdgeData),
      render_nodes_processed nodes = nodes.take MAX_NODES ∧
      render_node_draw_count nodes = min nodes.length MAX_NODES ∧
      (render_nodes_processed nodes).length = min nodes.length MAX_NODES ∧
      (render_node_overflow_warning nodes = true ↔ MAX_NODES < nodes.length) ∧
      render_edges_processed edges = edges.take MAX_EDGES ∧
      render_edge_draw_count edges = min edges.length MAX_EDGES ∧
      (render_edges_processed edges).length = min edges.length MAX_EDGES ∧
      (render_edge_overflow_warning edges = true ↔ MAX_EDGES < edges.length) ∧
      (render_nodes_processed (List.replicate (MAX_NODES + 1) default)).length =
        MAX_NODES := by
  intro nodes edges
  refine ⟨rfl, rfl, ?_, ?_, rfl, rfl, ?_, ?_, ?_⟩
  · rw [render_nodes_processed, List.length_take, min_comm]
  · simp [render_node_overflow_warning]
  · rw [render_edges_processed, List.length_take, min_comm]
  · simp [render_edge_overflow_warning]
  · rw [render_nodes_processed, List.length_take, List.length_replicate]
    simp [MAX_NODES]

/-- C6 counterexample: submitting `MAX_NODES + 1` full node records leaves
`set_nodes` storing all `MAX_NODES + 1` of them (the stored count is not the
configured maximum), and the physics-step upload then writes
`(MAX_NODES + 1) * 28` bytes into the `MAX_NODES * 28`-byte physics buffer —
no truncation to the maximum happens before that processing step. -/
theorem capacity_claim_counterexample :
    (set_nodes (List.replicate (7 * (MAX_NODES + 1)) (0 : ℝ))).length =
      MAX_NODES + 1 ∧
    get_current_node_count (set_nodes (List.replicate (7 * (MAX_NODES + 1)) (0 : ℝ))) ≠
      MAX_NODES ∧
    node_physics_upload_bytes (set_nodes (List.replicate (7 * (MAX_NODES + 1)) (0 : ℝ))) >
      node_physics_buffer_size := by
  have h : (set_nodes (List.replicate (7 * (MAX_NODES + 1)) (0 : ℝ))).length =
      MAX_NODES + 1 := by
    rw [set_nodes_length, List.length_replicate]
    norm_num [MAX_NODES]
  refine ⟨h, ?_, ?_⟩
  · rw [get_current_node_count, h]; norm_num [MAX_NODES]
  · rw [node_physics_upload_bytes, h]
    norm_num [node_physics_buffer_size, MAX_NODES, size_of_NodeData]

/-- C4: the host node record carries only the 7 values
`x, y, r, g, b, a, size` — no velocity, force or mass — while the shader-side
record of the physics step is a 12-value layout; the raw upload therefore
misaligns every record: with two host nodes, the first shader record's `vx`
slot receives the first node's red channel and its `g` slot receives the
second node's x coordinate. -/
theorem node_record_layout_mismatch :
    (hostNodeFloats hostNodeA).length = 7 ∧
    (shaderNodeFloats (default : ShaderNodeData)).length = FLOATS_PER_NODE ∧
    FLOATS_PER_NODE = 12 ∧
    (hostNodeFloats hostNodeA).length ≠ FLOATS_PER_NODE ∧
    (read_shader_node (write_node_buffer [hostNodeA, hostNodeB]) 0).vx = hostNodeA.r ∧
    (read_shader_node (write_node_buffer [hostNodeA, hostNodeB]) 0).g = hostNodeB.x ∧
    (read_shader_node (write_node_buffer [hostNodeA, hostNodeB]) 0).g ≠ hostNodeA.g := by
  refine ⟨rfl, rfl, rfl, by norm_num [hostNodeFloats, FLOATS_PER_NODE], ?_, ?_, ?_⟩
  · rfl
  · rfl
  · show (8 : ℝ) ≠ 4
    norm_num

/-- C5: the integrator is exactly the sequence `v += f * dt`, `v *= damping`,
`x += v * dt`, `f := 0` (giving the stated closed form), it is applied
independently to each node with index below `node_count` and leaves every
other node untouched, and the worked example holds: one node at the origin
with velocity `(1, 0)`, `dt = 1`, `damping = 1` and no forces ends the step
at position `(1, 0)` with velocity `(1, 0)`. -/
theorem integrator_symplectic_euler :
    (∀ (p : PhysicsParams) (n : ShaderNodeData),
      integrate_node p n =
        { n with
          x := n.x + (n.vx + n.fx * p.delta_time) * p.damping_factor * p.delta_time,
          y := n.y + (n.vy + n.fy * p.delta_time) * p.damping_factor * p.delta_time,
          vx := (n.vx + n.fx * p.delta_time) * p.damping_factor,
          vy := (n.vy + n.fy * p.delta_time) * p.damping_factor,
          fx := 0, fy := 0 }) ∧
    (∀ (p : PhysicsParams) (nodes : List ShaderNodeData) (i : ℕ),
      i < nodes.length →
        (i < p.node_count →
          (integrate_pass p nodes).getD i default =
            integrate_node p (nodes.getD i default)) ∧
        (p.node_count ≤ i →
          (integrate_pass p nodes).getD i default = nodes.getD i default)) ∧
    integrate_pass paramsDrift [nodeDrift] = [⟨1, 0, 1, 0, 0, 0, 0, 0, 0, 0, 0, 1⟩] := by
  refine ⟨fun p n => rfl, ?_, ?_⟩
  · intro p nodes i hi
    rw [integrate_pass, run_kernel_getD _ _ _ _ _ hi, Nat.zero_add]
    constructor
    · intro h; rw [if_neg (by omega)]
    · intro h; rw [if_pos h]
  · show integrate_pass paramsDrift [nodeDrift] = [⟨1, 0, 1, 0, 0, 0, 0, 0, 0, 0, 0, 1⟩]
    rw [integrate_pass, run_kernel, run_kernel]
    rw [if_neg (by norm_num [paramsDrift])]
    rw [integrate_node]
    simp only [paramsDrift, nodeDrift]
    norm_num

/-- Witness for C5: the integrator theorem applied to the concrete
one-node drift example, with both hypotheses discharged. -/
theorem integrator_symplectic_euler_witness :
    (integrate_pass paramsDrift [nodeDrift]).getD 0 default =
      integrate_node paramsDrift (([nodeDrift] : List ShaderNodeData).getD 0 default) :=
  ((integrator_symplectic_euler.2.1 paramsDrift [nodeDrift] 0 (by norm_num)).1
    (by norm_num [paramsDrift]))

lemma grid_coord_bounds (t : ℝ) :
    (Int.floor (min (max ((t - WORLD_MIN) / WORLD_SIZE) 0) 0.999 * (GRID_SIZE : ℝ))).toNat < 32 ∧
    (t ≤ -1 →
      (Int.floor (min (max ((t - WORLD_MIN) / WORLD_SIZE) 0) 0.999 * (GRID_SIZE : ℝ))).toNat = 0) ∧
    (1 ≤ t →
      (Int.floor (min (max ((t - WORLD_MIN) / WORLD_SIZE) 0) 0.999 * (GRID_SIZE : ℝ))).toNat = 31) := by
  have hG : ((GRID_SIZE : ℕ) : ℝ) = 32 := by norm_num [GRID_SIZE]
  refine ⟨?_, ?_, ?_⟩
  · have hc1 : min (max ((t - WORLD_MIN) / WORLD_SIZE) 0) 0.999 ≤ 0.999 := min_le_right _ _
    have h32 : min (max ((t - WORLD_MIN) / WORLD_SIZE) 0) 0.999 * (GRID_SIZE : ℝ) ≤ 31.968 := by
      rw [hG]
      nlinarith
    have hfl : Int.floor (min (max ((t - WORLD_MIN) / WORLD_SIZE) 0) 0.999 * (GRID_SIZE : ℝ)) ≤ 31 := by
      have h1 := Int.floor_mono h32
      have h2 : Int.floor ((31.968 : ℝ)) = 31 := by
        rw [Int.floor_eq_iff]; norm_num
      omega
    omega
  · intro h
    have hnx : (t - WORLD_MIN) / WORLD_SIZE ≤ 0 := by
      rw [WORLD_MIN, WORLD_SIZE, show (2.0 : ℝ) = 2 from by norm_num,
        div_le_iff₀ (by norm_num : (0:ℝ) < 2)]
      linarith
    rw [max_eq_right hnx, min_eq_left (by norm_num : (0:ℝ) ≤ 0.999), zero_mul]
    norm_num
  · intro h
    have hnx : (1 : ℝ) ≤ (t - WORLD_MIN) / WORLD_SIZE := by
      rw [WORLD_MIN, WORLD_SIZE, show (2.0 : ℝ) = 2 from by norm_num,
        le_div_iff₀ (by norm_num : (0:ℝ) < 2)]
      linarith
    have hmax : max ((t - WORLD_MIN) / WORLD_SIZE) 0 = (t - WORLD_MIN) / WORLD_SIZE :=
      max_eq_left (by linarith)
    rw [hmax, min_eq_right (by linarith : (0.999:ℝ) ≤ (t - WORLD_MIN) / WORLD_SIZE), hG]
    have h2 : Int.floor ((0.999 : ℝ) * 32) = 31 := by
      rw [Int.floor_eq_iff]; norm_num
    rw [h2]
    rfl

/-- C8: every position (any real pair, in particular every finite `f32`
position) is mapped by the grid index to exactly one valid cell: both cell
coordinates are below 32 and the linearized index `row * 32 + col` is below
1024; positions outside the world domain are clamped to a boundary cell
(coordinate 0 below the domain, 31 above it), never dropped. -/
theorem grid_cell_always_valid :
    ∀ pos : ℝ × ℝ,
      (get_grid_cell pos).1 < 32 ∧
      (get_grid_cell pos).2 < 32 ∧
      get_grid_index (get_grid_cell pos) < 1024 ∧
      (pos.1 ≤ -1 → (get_grid_cell pos).1 = 0) ∧
      (1 ≤ pos.1 → (get_grid_cell pos).1 = 31) ∧
      (pos.2 ≤ -1 → (get_grid_cell pos).2 = 0) ∧
      (1 ≤ pos.2 → (get_grid_cell pos).2 = 31) := by
  intro pos
  have e1 : (get_grid_cell pos).1 =
      (Int.floor (min (max ((pos.1 - WORLD_MIN) / WORLD_SIZE) 0) 0.999 * (GRID_SIZE : ℝ))).toNat := rfl
  have e2 : (get_grid_cell pos).2 =
      (Int.floor (min (max ((pos.2 - WORLD_MIN) / WORLD_SIZE) 0) 0.999 * (GRID_SIZE : ℝ))).toNat := rfl
  obtain ⟨h1, h2, h3⟩ := grid_coord_bounds pos.1
  obtain ⟨k1, k2, k3⟩ := grid_coord_bounds pos.2
  rw [e1, e2]
  refine ⟨h1, k1, ?_, h2, h3, k2, k3⟩
  rw [get_grid_index]
  simp only [GRID_SIZE]
  rw [e1, e2]
  omega

/-- Witness for C8: the out-of-domain position `(-5, 5)` clamps to cell
`(0, 31)` and `(5, -5)` to `(31, 0)`, with a valid linear index. -/
theorem grid_cell_always_valid_witness :
    (get_grid_cell ((-5 : ℝ), (5 : ℝ))).1 = 0 ∧
    (get_grid_cell ((-5 : ℝ), (5 : ℝ))).2 = 31 ∧
    (get_grid_cell ((5 : ℝ), (-5 : ℝ))).1 = 31 ∧
    (get_grid_cell ((5 : ℝ), (-5 : ℝ))).2 = 0 ∧
    get_grid_index (get_grid_cell ((-5 : ℝ), (5 : ℝ))) < 1024 :=
  ⟨(grid_cell_always_valid ((-5 : ℝ), (5 : ℝ))).2.2.2.1 (by norm_num),
    (grid_cell_always_valid ((-5 : ℝ), (5 : ℝ))).2.2.2.2.2.2 (by norm_num),
    (grid_cell_always_valid ((5 : ℝ), (-5 : ℝ))).2.2.2.2.1 (by norm_num),
    (grid_cell_always_valid ((5 : ℝ), (-5 : ℝ))).2.2.2.2.2.1 (by norm_num),
    (grid_cell_always_valid ((-5 : ℝ), (5 : ℝ))).2.2.1⟩

/-- C7: the repulsion force contribution is exactly `(0, 0)` whenever the
distance exceeds `repulsion_radius` or is below `0.001`; coincident nodes in
particular contribute zero; and on every input with nonnegative
`repulsion_strength` both force components are bounded by
`repulsion_strength / 0.01²` — in the real-valued model of the `f32`
arithmetic the evaluation is total (the in-range branch divides by a
distance of at least `0.001`), so no non-finite value can arise. -/
theorem repulsion_force_guard :
    ∀ (p : PhysicsParams) (node_a node_b : ShaderNodeData),
      (nodeDist node_a node_b > p.repulsion_radius ∨ nodeDist node_a node_b < 0.001 →
        calculate_repulsion_force p node_a node_b = (0, 0)) ∧
      (node_a.x = node_b.x ∧ node_a.y = node_b.y →
        calculate_repulsion_force p node_a node_b = (0, 0)) ∧
      (0 ≤ p.repulsion_strength →
        |(calculate_repulsion_force p node_a node_b).1| ≤
          p.repulsion_strength / (0.01 * 0.01) ∧
        |(calculate_repulsion_force p node_a node_b).2| ≤
          p.repulsion_strength / (0.01 * 0.01)) := by
  intro p node_a node_b
  have hunf : calculate_repulsion_force p node_a node_b =
      if nodeDist node_a node_b > p.repulsion_radius ∨ nodeDist node_a node_b < 0.001
      then ((0 : ℝ), (0 : ℝ))
      else
        (-(node_b.x - node_a.x) / nodeDist node_a node_b *
          (p.repulsion_strength /
            (max (nodeDist node_a node_b) 0.01 * max (nodeDist node_a node_b) 0.01)),
         -(node_b.y - node_a.y) / nodeDist node_a node_b *
          (p.repulsion_strength /
            (max (nodeDist node_a node_b) 0.01 * max (nodeDist node_a node_b) 0.01))) := rfl
  refine ⟨?_, ?_, ?_⟩
  · intro h
    rw [hunf, if_pos h]
  · rintro ⟨hx, hy⟩
    have hd : nodeDist node_a node_b = 0 := by
      rw [nodeDist, ← hx, ← hy]
      simp
    rw [hunf, if_pos (Or.inr (by rw [hd]; norm_num))]
  · intro hs
    by_cases hc : nodeDist node_a node_b > p.repulsion_radius ∨ nodeDist node_a node_b < 0.001
    · rw [hunf, if_pos hc]
      constructor <;> simpa using div_nonneg hs (by norm_num : (0:ℝ) ≤ 0.01 * 0.01)
    · push_neg at hc
      obtain ⟨hdr, hd001⟩ := hc
      have hd0 : (0 : ℝ) < nodeDist node_a node_b := lt_of_lt_of_le (by norm_num) hd001
      have hm : (0.01 : ℝ) ≤ max (nodeDist node_a node_b) 0.01 := le_max_right _ _
      have hm2 : (0.01 * 0.01 : ℝ) ≤
          max (nodeDist node_a node_b) 0.01 * max (nodeDist node_a node_b) 0.01 := by
        nlinarith
      have hmag : p.repulsion_strength /
          (max (nodeDist node_a node_b) 0.01 * max (nodeDist node_a node_b) 0.01) ≤
          p.repulsion_strength / (0.01 * 0.01) := by
        gcongr
      have hmagnn : (0 : ℝ) ≤ p.repulsion_strength /
          (max (nodeDist node_a node_b) 0.01 * max (nodeDist node_a node_b) 0.01) :=
        div_nonneg hs (by nlinarith)
      have hxb : |node_b.x - node_a.x| ≤ nodeDist node_a node_b := by
        rw [nodeDist, ← Real.sqrt_mul_self_eq_abs]
        exact Real.sqrt_le_sqrt (le_add_of_nonneg_right (mul_self_nonneg _))
      have hyb : |node_b.y - node_a.y| ≤ nodeDist node_a node_b := by
        rw [nodeDist, ← Real.sqrt_mul_self_eq_abs]
        exact Real.sqrt_le_sqrt (le_add_of_nonneg_left (mul_self_nonneg _))
      rw [hunf, if_neg (by push_neg; exact ⟨hdr, hd001⟩)]
      constructor
      · show |-(node_b.x - node_a.x) / nodeDist node_a node_b *
          (p.repulsion_strength /
            (max (nodeDist node_a node_b) 0.01 * max (nodeDist node_a node_b) 0.01))| ≤ _
        rw [abs_mul, abs_div, abs_neg]
        calc |node_b.x - node_a.x| / |nodeDist node_a node_b| *
            |p.repulsion_strength /
              (max (nodeDist node_a node_b) 0.01 * max (nodeDist node_a node_b) 0.01)|
            ≤ 1 * (p.repulsion_strength / (0.01 * 0.01)) := by
              apply mul_le_mul
              · rw [abs_of_pos hd0, div_le_one hd0]
                exact hxb
              · rw [abs_of_nonneg hmagnn]
                exact hmag
              · exact abs_nonneg _
              · norm_num
          _ = p.repulsion_strength / (0.01 * 0.01) := one_mul _
      · show |-(node_b.y - node_a.y) / nodeDist node_a node_b *
          (p.repulsion_strength /
            (max (nodeDist node_a node_b) 0.01 * max (nodeDist node_a node_b) 0.01))| ≤ _
        rw [abs_mul, abs_div, abs_neg]
        calc |node_b.y - node_a.y| / |nodeDist node_a node_b| *
            |p.repulsion_strength /
              (max (nodeDist node_a node_b) 0.01 * max (nodeDist node_a node_b) 0.01)|
            ≤ 1 * (p.repulsion_strength / (0.01 * 0.01)) := by
              apply mul_le_mul
              · rw [abs_of_pos hd0, div_le_one hd0]
                exact hyb
              · rw [abs_of_nonneg hmagnn]
                exact hmag
              · exact abs_nonneg _
              · norm_num
          _ = p.repulsion_strength / (0.01 * 0.01) := one_mul _

/-- Witness for C7: coincident concrete nodes give zero force, the pair at
distance 5 with radius 2 gives zero force, and the in-range concrete pair
satisfies the bound, each hypothesis discharged concretely. -/
theorem repulsion_force_guard_witness :
    calculate_repulsion_force paramsIJ nodeI nodeI = (0, 0) ∧
    calculate_repulsion_force paramsIJ nodeI nodeFar = (0, 0) ∧
    |(calculate_repulsion_force paramsIJ nodeI nodeJ).1| ≤
      paramsIJ.repulsion_strength / (0.01 * 0.01) := by
  have hfar : nodeDist nodeI nodeFar = 5 := by
    simp only [nodeDist, nodeI, nodeFar]
    rw [show ((3:ℝ) - 0) * ((3:ℝ) - 0) + ((4:ℝ) - 0) * ((4:ℝ) - 0) = 5 ^ 2 by norm_num]
    exact Real.sqrt_sq (by norm_num)
  exact ⟨(repulsion_force_guard paramsIJ nodeI nodeI).2.1 ⟨rfl, rfl⟩,
    (repulsion_force_guard paramsIJ nodeI nodeFar).1
      (Or.inl (by rw [hfar]; norm_num [paramsIJ])),
    ((repulsion_force_guard paramsIJ nodeI nodeJ).2.2 (by norm_num [paramsIJ])).1⟩

lemma assign_to_grid_cell_spec (p : PhysicsParams) :
    ∀ (ns : List ShaderNodeData) (i : ℕ) (g : ℕ → GridCell) (A : List ℕ) (j : ℕ),
      (g j).node_indices = A.take 32 → (g j).node_count = A.length →
      (assign_to_grid p i ns g j).node_indices = (A ++ cell_arrivals p i ns j).take 32 ∧
      (assign_to_grid p i ns g j).node_count = (A ++ cell_arrivals p i ns j).length := by
  intro ns
  induction ns with
  | nil =>
    intro i g A j h1 h2
    simp only [assign_to_grid, cell_arrivals, List.append_nil]
    exact ⟨h1, by rw [h2]⟩
  | cons n t ih =>
    intro i g A j h1 h2
    simp only [assign_to_grid, cell_arrivals]
    by_cases hcnt : i < p.node_count
    · set gi := get_grid_index (get_grid_cell (n.x, n.y)) with hgi
      have hhit : assign_one p i n g =
          fun j2 => if j2 = gi then assign_push i (g gi) else g j2 := by
        rw [assign_one, if_neg (by omega)]
      by_cases hj : j = gi
      · rw [if_pos ⟨hcnt, hj.symm⟩]
        have hind : ((assign_one p i n g) j).node_indices = (A ++ [i]).take 32 := by
          rw [hhit]
          simp only [if_pos hj]
          rw [← hj, assign_push]
          simp only [h1, h2, List.take_append_eq_append_take]
          by_cases hA : A.length < 32
          · rw [if_pos hA, show 32 - A.length = (32 - A.length - 1) + 1 from by omega,
              List.take_succ_cons, List.take_nil]
          · rw [if_neg hA, show 32 - A.length = 0 from by omega, List.take_zero,
              List.append_nil]
        have hcnt' : ((assign_one p i n g) j).node_count = (A ++ [i]).length := by
          rw [hhit]
          simp only [if_pos hj]
          rw [← hj, assign_push]
          simp [h2]
        have := ih (i + 1) (assign_one p i n g) (A ++ [i]) j hind hcnt'
        rw [← List.append_assoc]
        exact this
      · rw [if_neg (fun hAnd => hj hAnd.2.symm), List.nil_append]
        have hind : ((assign_one p i n g) j).node_indices = A.take 32 := by
          rw [hhit]; simp only [if_neg hj]; exact h1
        have hcnt' : ((assign_one p i n g) j).node_count = A.length := by
          rw [hhit]; simp only [if_neg hj]; exact h2
        exact ih (i + 1) (assign_one p i n g) A j hind hcnt'
    · have hskip : assign_one p i n g = g := by rw [assign_one, if_pos (by omega)]
      rw [hskip, if_neg (fun hAnd => hcnt hAnd.1), List.nil_append]
      exact ih (i + 1) g A j h1 h2

/-- C9: after grid assignment, each cell's live index array holds exactly the
first (at most) 32 node indices that arrived at that cell — an index is
recorded only while the pre-increment count is below the capacity 32, so
every recorded entry sits inside the 32-entry array and later arrivals are
silently dropped; the occupancy counter keeps counting past 32; and the
repulsion pass reads at most the first 32 recorded entries of any cell. -/
theorem grid_capacity_bound :
    ∀ (p : PhysicsParams) (nodes : List ShaderNodeData) (j : ℕ),
      (assign_to_grid p 0 nodes clear_grid j).node_indices =
        (cell_arrivals p 0 nodes j).take 32 ∧
      (assign_to_grid p 0 nodes clear_grid j).node_count =
        (cell_arrivals p 0 nodes j).length ∧
      (assign_to_grid p 0 nodes clear_grid j).node_indices.length ≤ 32 ∧
      (∀ (node_index : ℕ) (node : ShaderNodeData) (cell : GridCell) (acc : ℝ × ℝ),
        repulsion_cell_scan p nodes node_index node cell acc =
          repulsion_cell_scan p nodes node_index node
            ⟨cell.node_indices.take 32, cell.node_count⟩ acc) := by
  intro p nodes j
  obtain ⟨h1, h2⟩ := assign_to_grid_cell_spec p nodes 0 clear_grid [] j rfl rfl
  rw [List.nil_append] at h1 h2
  refine ⟨h1, h2, ?_, ?_⟩
  · rw [h1, List.length_take]
    exact min_le_left _ _
  · intro node_index node cell acc
    rw [repulsion_cell_scan, repulsion_cell_scan]
    simp [List.take_take]

lemma crf_unfold (p : PhysicsParams) (na nb : ShaderNodeData) :
    calculate_repulsion_force p na nb =
      if nodeDist na nb > p.repulsion_radius ∨ nodeDist na nb < 0.001
      then ((0 : ℝ), (0 : ℝ))
      else
        (-(nb.x - na.x) / nodeDist na nb *
          (p.repulsion_strength / (max (nodeDist na nb) 0.01 * max (nodeDist na nb) 0.01)),
         -(nb.y - na.y) / nodeDist na nb *
          (p.repulsion_strength / (max (nodeDist na nb) 0.01 * max (nodeDist na nb) 0.01))) := rfl

lemma distIJ : nodeDist nodeI nodeJ = 0.05 := by
  rw [nodeDist]
  rw [show (nodeJ.x - nodeI.x) * (nodeJ.x - nodeI.x) +
      (nodeJ.y - nodeI.y) * (nodeJ.y - nodeI.y) = (0.05 : ℝ) ^ 2 from by
    norm_num [nodeI, nodeJ]]
  exact Real.sqrt_sq (by norm_num)

lemma distJI : nodeDist nodeJ nodeI = 0.05 := by
  rw [nodeDist]
  rw [show (nodeI.x - nodeJ.x) * (nodeI.x - nodeJ.x) +
      (nodeI.y - nodeJ.y) * (nodeI.y - nodeJ.y) = (0.05 : ℝ) ^ 2 from by
    norm_num [nodeI, nodeJ]]
  exact Real.sqrt_sq (by norm_num)

lemma forceIJ : calculate_repulsion_force paramsIJ nodeI nodeJ = (-400, 0) := by
  rw [crf_unfold, distIJ, if_neg (by norm_num [paramsIJ])]
  rw [max_eq_left (by norm_num : (0.01 : ℝ) ≤ 0.05)]
  norm_num [nodeI, nodeJ, paramsIJ, Prod.ext_iff]

lemma forceJI : calculate_repulsion_force paramsIJ nodeJ nodeI = (400, 0) := by
  rw [crf_unfold, distJI, if_neg (by norm_num [paramsIJ])]
  rw [max_eq_left (by norm_num : (0.01 : ℝ) ≤ 0.05)]
  norm_num [nodeI, nodeJ, paramsIJ, Prod.ext_iff]

lemma grid_coord_eval (t v : ℝ) (k : ℕ)
    (hv : (t - WORLD_MIN) / WORLD_SIZE = v) (h0 : 0 ≤ v) (h1 : v ≤ 0.999)
    (hlo : (k : ℝ) ≤ v * 32) (hhi : v * 32 < (k : ℝ) + 1) :
    (Int.floor (min (max ((t - WORLD_MIN) / WORLD_SIZE) 0) 0.999 * (GRID_SIZE : ℝ))).toNat = k := by
  rw [hv, max_eq_left h0, min_eq_left h1,
    show ((GRID_SIZE : ℕ) : ℝ) = 32 from by norm_num [GRID_SIZE]]
  have hfl : Int.floor (v * 32) = (k : ℤ) := by
    rw [Int.floor_eq_iff]
    exact ⟨by exact_mod_cast hlo, by push_cast; exact hhi⟩
  rw [hfl]
  simp

lemma cellI : get_grid_cell (nodeI.x, nodeI.y) = (16, 16) := by
  have hx := grid_coord_eval nodeI.x 0.5 16
    (by norm_num [nodeI, WORLD_MIN, WORLD_SIZE]) (by norm_num) (by norm_num)
    (by norm_num) (by norm_num)
  have hy := grid_coord_eval nodeI.y 0.5 16
    (by norm_num [nodeI, WORLD_MIN, WORLD_SIZE]) (by norm_num) (by norm_num)
    (by norm_num) (by norm_num)
  show ((Int.floor (min (max ((nodeI.x - WORLD_MIN) / WORLD_SIZE) 0) 0.999 * (GRID_SIZE : ℝ))).toNat,
      (Int.floor (min (max ((nodeI.y - WORLD_MIN) / WORLD_SIZE) 0) 0.999 * (GRID_SIZE : ℝ))).toNat) =
    ((16 : ℕ), (16 : ℕ))
  rw [hx, hy]

lemma cellJ : get_grid_cell (nodeJ.x, nodeJ.y) = (16, 16) := by
  have hx := grid_coord_eval nodeJ.x 0.525 16
    (by norm_num [nodeJ, WORLD_MIN, WORLD_SIZE]) (by norm_num) (by norm_num)
    (by norm_num) (by norm_num)
  have hy := grid_coord_eval nodeJ.y 0.5 16
    (by norm_num [nodeJ, WORLD_MIN, WORLD_SIZE]) (by norm_num) (by norm_num)
    (by norm_num) (by norm_num)
  show ((Int.floor (min (max ((nodeJ.x - WORLD_MIN) / WORLD_SIZE) 0) 0.999 * (GRID_SIZE : ℝ))).toNat,
      (Int.floor (min (max ((nodeJ.y - WORLD_MIN) / WORLD_SIZE) 0) 0.999 * (GRID_SIZE : ℝ))).toNat) =
    ((16 : ℕ), (16 : ℕ))
  rw [hx, hy]

lemma cellL : get_grid_cell (nodeL.x, nodeL.y) = (8, 16) := by
  have hx := grid_coord_eval nodeL.x 0.25 8
    (by norm_num [nodeL, WORLD_MIN, WORLD_SIZE]) (by norm_num) (by norm_num)
    (by norm_num) (by norm_num)
  have hy := grid_coord_eval nodeL.y 0.5 16
    (by norm_num [nodeL, WORLD_MIN, WORLD_SIZE]) (by norm_num) (by norm_num)
    (by norm_num) (by norm_num)
  show ((Int.floor (min (max ((nodeL.x - WORLD_MIN) / WORLD_SIZE) 0) 0.999 * (GRID_SIZE : ℝ))).toNat,
      (Int.floor (min (max ((nodeL.y - WORLD_MIN) / WORLD_SIZE) 0) 0.999 * (GRID_SIZE : ℝ))).toNat) =
    ((8 : ℕ), (16 : ℕ))
  rw [hx, hy]

lemma cellR : get_grid_cell (nodeR.x, nodeR.y) = (24, 16) := by
  have hx := grid_coord_eval nodeR.x 0.75 24
    (by norm_num [nodeR, WORLD_MIN, WORLD_SIZE]) (by norm_num) (by norm_num)
    (by norm_num) (by norm_num)
  have hy := grid_coord_eval nodeR.y 0.5 16
    (by norm_num [nodeR, WORLD_MIN, WORLD_SIZE]) (by norm_num) (by norm_num)
    (by norm_num) (by norm_num)
  show ((Int.floor (min (max ((nodeR.x - WORLD_MIN) / WORLD_SIZE) 0) 0.999 * (GRID_SIZE : ℝ))).toNat,
      (Int.floor (min (max ((nodeR.y - WORLD_MIN) / WORLD_SIZE) 0) 0.999 * (GRID_SIZE : ℝ))).toNat) =
    ((24 : ℕ), (16 : ℕ))
  rw [hx, hy]

lemma gIJ_eval (j : ℕ) :
    assign_to_grid paramsIJ 0 [nodeI, nodeJ] clear_grid j =
      if j = 528 then ⟨[0, 1], 2⟩ else ⟨[], 0⟩ := by
  have hI : get_grid_index (get_grid_cell (nodeI.x, nodeI.y)) = 528 := by
    rw [cellI]; rfl
  have hJ : get_grid_index (get_grid_cell (nodeJ.x, nodeJ.y)) = 528 := by
    rw [cellJ]; rfl
  have hfun1 : assign_one paramsIJ 0 nodeI clear_grid =
      fun j2 => if j2 = 528 then assign_push 0 (clear_grid 528) else clear_grid j2 := by
    rw [assign_one, if_neg (show ¬ paramsIJ.node_count ≤ 0 by norm_num [paramsIJ])]
    simp only [hI]
  have hg1 : ∀ j2, assign_one paramsIJ 0 nodeI clear_grid j2 =
      if j2 = 528 then ⟨[0], 1⟩ else ⟨[], 0⟩ := by
    intro j2
    simp only [hfun1]
    by_cases h : j2 = 528
    · rw [if_pos h, if_pos h]; rfl
    · rw [if_neg h, if_neg h]; rfl
  have hstep : assign_to_grid paramsIJ 0 [nodeI, nodeJ] clear_grid =
      assign_one paramsIJ 1 nodeJ (assign_one paramsIJ 0 nodeI clear_grid) := rfl
  rw [hstep, assign_one, if_neg (show ¬ paramsIJ.node_count ≤ 1 by norm_num [paramsIJ])]
  simp only [hJ]
  by_cases h : j = 528
  · rw [if_pos h, if_pos h, hg1 528, if_pos rfl]
    rfl
  · rw [if_neg h, if_neg h, hg1 j, if_neg h]

lemma gLR_eval (j : ℕ) :
    assign_to_grid paramsSpring 0 [nodeL, nodeR] clear_grid j =
      if j = 536 then ⟨[1], 1⟩ else if j = 520 then ⟨[0], 1⟩ else ⟨[], 0⟩ := by
  have hL : get_grid_index (get_grid_cell (nodeL.x, nodeL.y)) = 520 := by
    rw [cellL]; rfl
  have hR : get_grid_index (get_grid_cell (nodeR.x, nodeR.y)) = 536 := by
    rw [cellR]; rfl
  have hfun1 : assign_one paramsSpring 0 nodeL clear_grid =
      fun j2 => if j2 = 520 then assign_push 0 (clear_grid 520) else clear_grid j2 := by
    rw [assign_one, if_neg (show ¬ paramsSpring.node_count ≤ 0 by norm_num [paramsSpring])]
    simp only [hL]
  have hg1 : ∀ j2, assign_one paramsSpring 0 nodeL clear_grid j2 =
      if j2 = 520 then ⟨[0], 1⟩ else ⟨[], 0⟩ := by
    intro j2
    simp only [hfun1]
    by_cases h : j2 = 520
    · rw [if_pos h, if_pos h]; rfl
    · rw [if_neg h, if_neg h]; rfl
  have hstep : assign_to_grid paramsSpring 0 [nodeL, nodeR] clear_grid =
      assign_one paramsSpring 1 nodeR (assign_one paramsSpring 0 nodeL clear_grid) := rfl
  rw [hstep, assign_one, if_neg (show ¬ paramsSpring.node_count ≤ 1 by norm_num [paramsSpring])]
  simp only [hR]
  by_cases h : j = 536
  · rw [if_pos h, if_pos h, hg1 536, if_neg (by norm_num)]
    rfl
  · rw [if_neg h, if_neg h, hg1 j]

lemma scan_empty (p : PhysicsParams) (nodes : List ShaderNodeData) (idx : ℕ)
    (node : ShaderNodeData) (acc : ℝ × ℝ) :
    repulsion_cell_scan p nodes idx node ⟨[], 0⟩ acc = acc := rfl

lemma scanIJ_0 (acc : ℝ × ℝ) :
    repulsion_cell_scan paramsIJ [nodeI, nodeJ] 0 nodeI ⟨[0, 1], 2⟩ acc =
      (acc.1 + 400, acc.2) := by
  have hunf : repulsion_cell_scan paramsIJ [nodeI, nodeJ] 0 nodeI ⟨[0, 1], 2⟩ acc =
      (acc.1 - (calculate_repulsion_force paramsIJ nodeI nodeJ).1,
       acc.2 - (calculate_repulsion_force paramsIJ nodeI nodeJ).2) := rfl
  rw [hunf, forceIJ]
  norm_num

lemma scanIJ_1 (acc : ℝ × ℝ) :
    repulsion_cell_scan paramsIJ [nodeI, nodeJ] 1 nodeJ ⟨[0, 1], 2⟩ acc =
      (acc.1 - 400, acc.2) := by
  have hunf : repulsion_cell_scan paramsIJ [nodeI, nodeJ] 1 nodeJ ⟨[0, 1], 2⟩ acc =
      (acc.1 - (calculate_repulsion_force paramsIJ nodeJ nodeI).1,
       acc.2 - (calculate_repulsion_force paramsIJ nodeJ nodeI).2) := rfl
  rw [hunf, forceJI]
  norm_num

lemma totalI :
    repulsion_total paramsIJ (assign_to_grid paramsIJ 0 [nodeI, nodeJ] clear_grid)
      [nodeI, nodeJ] 0 nodeI = (400, 0) := by
  simp only [repulsion_total, cellI]
  norm_num [gIJ_eval, get_grid_index, GRID_SIZE]
  simp only [Int.reduceToNat]
  norm_num [scan_empty, scanIJ_0]

lemma totalJ :
    repulsion_total paramsIJ (assign_to_grid paramsIJ 0 [nodeI, nodeJ] clear_grid)
      [nodeI, nodeJ] 1 nodeJ = (-400, 0) := by
  simp only [repulsion_total, cellJ]
  norm_num [gIJ_eval, get_grid_index, GRID_SIZE]
  simp only [Int.reduceToNat]
  norm_num [scan_empty, scanIJ_1]

lemma passIJ :
    calculate_repulsion_pass paramsIJ (assign_to_grid paramsIJ 0 [nodeI, nodeJ] clear_grid)
      [nodeI, nodeJ] =
      [⟨0, 0, 0, 0, 400, 0, 0, 0, 0, 0, 0, 1⟩, ⟨0.05, 0, 0, 0, -400, 0, 0, 0, 0, 0, 0, 1⟩] := by
  have hunf : calculate_repulsion_pass paramsIJ
      (assign_to_grid paramsIJ 0 [nodeI, nodeJ] clear_grid) [nodeI, nodeJ] =
      [if paramsIJ.node_count ≤ 0 then nodeI else
        { nodeI with
          fx := nodeI.fx + (repulsion_total paramsIJ
            (assign_to_grid paramsIJ 0 [nodeI, nodeJ] clear_grid) [nodeI, nodeJ] 0 nodeI).1,
          fy := nodeI.fy + (repulsion_total paramsIJ
            (assign_to_grid paramsIJ 0 [nodeI, nodeJ] clear_grid) [nodeI, nodeJ] 0 nodeI).2 },
       if paramsIJ.node_count ≤ 1 then nodeJ else
        { nodeJ with
          fx := nodeJ.fx + (repulsion_total paramsIJ
            (assign_to_grid paramsIJ 0 [nodeI, nodeJ] clear_grid) [nodeI, nodeJ] 1 nodeJ).1,
          fy := nodeJ.fy + (repulsion_total paramsIJ
            (assign_to_grid paramsIJ 0 [nodeI, nodeJ] clear_grid) [nodeI, nodeJ] 1 nodeJ).2 }] := rfl
  rw [hunf, if_neg (by norm_num [paramsIJ]), if_neg (by norm_num [paramsIJ]), totalI, totalJ]
  norm_num [nodeI, nodeJ]

lemma stepIJ :
    physics_step paramsIJ [nodeI, nodeJ] [] =
      [⟨400, 0, 400, 0, 0, 0, 0, 0, 0, 0, 0, 1⟩,
       ⟨-399.95, 0, -400, 0, 0, 0, 0, 0, 0, 0, 0, 1⟩] := by
  have hunf : physics_step paramsIJ [nodeI, nodeJ] [] =
      integrate_pass paramsIJ (calculate_repulsion_pass paramsIJ
        (assign_to_grid paramsIJ 0 [nodeI, nodeJ] clear_grid) [nodeI, nodeJ]) := rfl
  rw [hunf, passIJ]
  have h2 : ∀ n1 n2 : ShaderNodeData, integrate_pass paramsIJ [n1, n2] =
      [if paramsIJ.node_count ≤ 0 then n1 else integrate_node paramsIJ n1,
       if paramsIJ.node_count ≤ 1 then n2 else integrate_node paramsIJ n2] := fun n1 n2 => rfl
  rw [h2, if_neg (by norm_num [paramsIJ]), if_neg (by norm_num [paramsIJ])]
  rw [integrate_node, integrate_node]
  norm_num [paramsIJ]

lemma totalL :
    repulsion_total paramsSpring (assign_to_grid paramsSpring 0 [nodeL, nodeR] clear_grid)
      [nodeL, nodeR] 0 nodeL = (0, 0) := by
  have hself : ∀ acc : ℝ × ℝ,
      repulsion_cell_scan paramsSpring [nodeL, nodeR] 0 nodeL ⟨[0], 1⟩ acc = acc :=
    fun acc => rfl
  simp only [repulsion_total, cellL]
  norm_num [gLR_eval, get_grid_index, GRID_SIZE]
  simp only [Int.reduceToNat]
  norm_num [scan_empty, hself]

lemma totalR :
    repulsion_total paramsSpring (assign_to_grid paramsSpring 0 [nodeL, nodeR] clear_grid)
      [nodeL, nodeR] 1 nodeR = (0, 0) := by
  have hself : ∀ acc : ℝ × ℝ,
      repulsion_cell_scan paramsSpring [nodeL, nodeR] 1 nodeR ⟨[1], 1⟩ acc = acc :=
    fun acc => rfl
  simp only [repulsion_total, cellR]
  norm_num [gLR_eval, get_grid_index, GRID_SIZE]
  simp only [Int.reduceToNat]
  norm_num [scan_empty, hself]

lemma stepLR :
    physics_step paramsSpring [nodeL, nodeR] [edgeLR] = [nodeL, nodeR] := by
  have hunf : physics_step paramsSpring [nodeL, nodeR] [edgeLR] =
      integrate_pass paramsSpring (calculate_repulsion_pass paramsSpring
        (assign_to_grid paramsSpring 0 [nodeL, nodeR] clear_grid) [nodeL, nodeR]) := rfl
  have hpass : calculate_repulsion_pass paramsSpring
      (assign_to_grid paramsSpring 0 [nodeL, nodeR] clear_grid) [nodeL, nodeR] =
      [nodeL, nodeR] := by
    have hp : calculate_repulsion_pass paramsSpring
        (assign_to_grid paramsSpring 0 [nodeL, nodeR] clear_grid) [nodeL, nodeR] =
        [if paramsSpring.node_count ≤ 0 then nodeL else
          { nodeL with
            fx := nodeL.fx + (repulsion_total paramsSpring
              (assign_to_grid paramsSpring 0 [nodeL, nodeR] clear_grid) [nodeL, nodeR] 0 nodeL).1,
            fy := nodeL.fy + (repulsion_total paramsSpring
              (assign_to_grid paramsSpring 0 [nodeL, nodeR] clear_grid) [nodeL, nodeR] 0 nodeL).2 },
         if paramsSpring.node_count ≤ 1 then nodeR else
          { nodeR with
            fx := nodeR.fx + (repulsion_total paramsSpring
              (assign_to_grid paramsSpring 0 [nodeL, nodeR] clear_grid) [nodeL, nodeR] 1 nodeR).1,
            fy := nodeR.fy + (repulsion_total paramsSpring
              (assign_to_grid paramsSpring 0 [nodeL, nodeR] clear_grid) [nodeL, nodeR] 1 nodeR).2 }] := rfl
    rw [hp, if_neg (by norm_num [paramsSpring]), if_neg (by norm_num [paramsSpring]),
      totalL, totalR]
    norm_num [nodeL, nodeR]
  rw [hunf, hpass]
  have h2 : integrate_pass paramsSpring [nodeL, nodeR] =
      [if paramsSpring.node_count ≤ 0 then nodeL else integrate_node paramsSpring nodeL,
       if paramsSpring.node_count ≤ 1 then nodeR else integrate_node paramsSpring nodeR] := rfl
  rw [h2, if_neg (by norm_num [paramsSpring]), if_neg (by norm_num [paramsSpring])]
  rw [integrate_node, integrate_node]
  norm_num [paramsSpring, nodeL, nodeR]

lemma foldl_congr_fun {α β : Type _} {f g : β → α → β} (h : ∀ b a, f b a = g b a) :
    ∀ (l : List α) (b : β), List.foldl f b l = List.foldl g b l := by
  intro l
  induction l with
  | nil => intro b; rfl
  | cons x t ih => intro b; rw [List.foldl_cons, List.foldl_cons, h, ih]

lemma run_kernel_congr {f g : ℕ → ShaderNodeData → ShaderNodeData}
    (h : ∀ i n, f i n = g i n) :
    ∀ (k : ℕ) (ns : List ShaderNodeData), run_kernel f k ns = run_kernel g k ns := by
  intro k ns
  induction ns generalizing k with
  | nil => rfl
  | cons n t ih => rw [run_kernel, run_kernel, h, ih]

lemma crf_spring_irrel (p : PhysicsParams) (k r : ℝ) (na nb : ShaderNodeData) :
    calculate_repulsion_force { p with spring_constant := k, rest_length := r } na nb =
      calculate_repulsion_force p na nb := by
  cases p; rfl

lemma cell_scan_spring_irrel (p : PhysicsParams) (k r : ℝ) (nodes : List ShaderNodeData)
    (idx : ℕ) (node : ShaderNodeData) (cell : GridCell) (acc : ℝ × ℝ) :
    repulsion_cell_scan { p with spring_constant := k, rest_length := r } nodes idx node cell acc =
      repulsion_cell_scan p nodes idx node cell acc := by
  simp only [repulsion_cell_scan]
  apply foldl_congr_fun
  intro b a
  by_cases ha : a ≠ idx
  · rw [if_pos ha, if_pos ha, crf_spring_irrel]
  · rw [if_neg ha, if_neg ha]

lemma total_spring_irrel (p : PhysicsParams) (k r : ℝ) (g : ℕ → GridCell)
    (nodes : List ShaderNodeData) (idx : ℕ) (node : ShaderNodeData) :
    repulsion_total { p with spring_constant := k, rest_length := r } g nodes idx node =
      repulsion_total p g nodes idx node := by
  simp only [repulsion_total]
  apply foldl_congr_fun
  intro b dy
  apply foldl_congr_fun
  intro b2 dx
  split_ifs with hb
  · exact cell_scan_spring_irrel p k r nodes idx node _ b2
  · rfl

lemma assign_one_spring_irrel (p : PhysicsParams) (k r : ℝ) (i : ℕ)
    (n : ShaderNodeData) (g : ℕ → GridCell) :
    assign_one { p with spring_constant := k, rest_length := r } i n g =
      assign_one p i n g := by
  cases p; rfl

lemma assign_spring_irrel (p : PhysicsParams) (k r : ℝ) :
    ∀ (ns : List ShaderNodeData) (i : ℕ) (g : ℕ → GridCell),
      assign_to_grid { p with spring_constant := k, rest_length := r } i ns g =
        assign_to_grid p i ns g := by
  intro ns
  induction ns with
  | nil => intro i g; rfl
  | cons n t ih =>
    intro i g
    simp only [assign_to_grid]
    rw [assign_one_spring_irrel]
    exact ih (i + 1) (assign_one p i n g)

lemma pass_spring_irrel (p : PhysicsParams) (k r : ℝ) (g : ℕ → GridCell)
    (nodes : List ShaderNodeData) :
    calculate_repulsion_pass { p with spring_constant := k, rest_length := r } g nodes =
      calculate_repulsion_pass p g nodes := by
  simp only [calculate_repulsion_pass]
  apply run_kernel_congr
  intro i n
  by_cases hc : p.node_count ≤ i
  · rw [if_pos hc, if_pos hc]
  · rw [if_neg hc, if_neg hc, total_spring_irrel]

lemma integrate_pass_spring_irrel (p : PhysicsParams) (k r : ℝ)
    (nodes : List ShaderNodeData) :
    integrate_pass { p with spring_constant := k, rest_length := r } nodes =
      integrate_pass p nodes := by
  have hnode : ∀ n, integrate_node { p with spring_constant := k, rest_length := r } n =
      integrate_node p n := by
    intro n; cases p; rfl
  simp only [integrate_pass]
  apply run_kernel_congr
  intro i n
  by_cases hc : p.node_count ≤ i
  · rw [if_pos hc, if_pos hc]
  · rw [if_neg hc, if_neg hc, hnode]

lemma physics_step_spring_irrel (p : PhysicsParams) (k r : ℝ)
    (nodes : List ShaderNodeData) (edges edges' : List EdgeData) :
    physics_step { p with spring_constant := k, rest_length := r } nodes edges' =
      physics_step p nodes edges := by
  have h1 : physics_step { p with spring_constant := k, rest_length := r } nodes edges' =
      integrate_pass { p with spring_constant := k, rest_length := r }
        (calculate_repulsion_pass { p with spring_constant := k, rest_length := r }
          (assign_to_grid { p with spring_constant := k, rest_length := r } 0 nodes clear_grid)
          nodes) := rfl
  have h2 : physics_step p nodes edges =
      integrate_pass p (calculate_repulsion_pass p
        (assign_to_grid p 0 nodes clear_grid) nodes) := rfl
  rw [h1, h2, assign_spring_irrel, pass_spring_irrel, integrate_pass_spring_irrel]

lemma distLR : nodeDist nodeL nodeR = 1 := by
  rw [nodeDist]
  rw [show (nodeR.x - nodeL.x) * (nodeR.x - nodeL.x) +
      (nodeR.y - nodeL.y) * (nodeR.y - nodeL.y) = (1 : ℝ) ^ 2 from by
    norm_num [nodeL, nodeR]]
  exact Real.sqrt_sq (by norm_num)

/-- C1: evaluation of the repulsion pass at the failing input exhibits the
inverted sign.  Nodes `i = (0,0)` and `j = (0.05,0)` share grid cell 528 and
are within `repulsion_radius = 2` at distance `0.05 > 0.001`; the claim
prescribes the increment `magnitude * (unit vector from j toward i)`, whose
x-component is `-400`, but the pass adds `+400` to node i's `fx` (the
shader's `total_force -= calculate_repulsion_force(...)` negates the already
i-directed force vector, so each node is pulled toward its neighbor instead
of pushed away). -/
theorem repulsion_direction_inverted :
    ((calculate_repulsion_pass paramsIJ (assign_to_grid paramsIJ 0 [nodeI, nodeJ] clear_grid)
        [nodeI, nodeJ]).getD 0 default).fx = 400 ∧
    paramsIJ.repulsion_strength /
        (max (nodeDist nodeI nodeJ) 0.01 * max (nodeDist nodeI nodeJ) 0.01) *
        ((nodeI.x - nodeJ.x) / nodeDist nodeI nodeJ) = -400 ∧
    (400 : ℝ) ≠ -400 := by
  refine ⟨?_, ?_, by norm_num⟩
  · rw [passIJ]
    norm_num
  · rw [distIJ, max_eq_left (by norm_num : (0.01 : ℝ) ≤ 0.05)]
    norm_num [nodeI, nodeJ, paramsIJ]

/-- C2 (amended): the per-step pipeline is clear-grid, assign-to-grid,
repulsion, integrate — there is no spring phase.  The edge buffer and the
`spring_constant` / `rest_length` parameters are supplied to the step but
never read by any pass, so the step result is independent of all of them. -/
theorem no_spring_phase :
    ∀ (p : PhysicsParams) (k r : ℝ) (nodes : List ShaderNodeData)
      (edges edges' : List EdgeData),
      physics_step p nodes edges =
        integrate_pass p (calculate_repulsion_pass p
          (assign_to_grid p 0 nodes clear_grid) nodes) ∧
      physics_step { p with spring_constant := k, rest_length := r } nodes edges' =
        physics_step p nodes edges :=
  fun p k r nodes edges edges' =>
    ⟨rfl, physics_step_spring_irrel p k r nodes edges edges'⟩

/-- C2 counterexample: two nodes joined by an edge of nonzero length with
`spring_constant = 1` and `rest_length = 0`; the claim requires a spring
force of magnitude `1 * (1 - 0) = 1 ≠ 0` to be added to each endpoint's
accumulator during the step, yet the full step leaves both nodes (positions,
velocities and accumulators) completely unchanged. -/
theorem spring_phase_counterexample :
    physics_step paramsSpring [nodeL, nodeR] [edgeLR] = [nodeL, nodeR] ∧
    paramsSpring.spring_constant * (nodeDist nodeL nodeR - paramsSpring.rest_length) ≠ 0 := by
  refine ⟨stepLR, ?_⟩
  rw [distLR]
  norm_num [paramsSpring]

/-- C3 (amended): when the compute pipelines cannot be constructed,
`integrate_physics` performs no physics computation at all — the node array
is returned unchanged — while still returning success exactly as the GPU
path does, and logging only a diagnostic; there is no brute-force repulsion
fallback. -/
theorem fallback_is_noop :
    ∀ (p : PhysicsParams) (nodes : List ShaderNodeData) (edges : List EdgeData),
      integrate_physics_call false p nodes edges = (nodes, true) ∧
      cpu_fallback_step p nodes edges = nodes ∧
      (integrate_physics_call false p nodes edges).2 =
        (integrate_physics_call true p nodes edges).2 :=
  fun p nodes edges => ⟨rfl, rfl, rfl⟩

/-- C3 counterexample: on the concrete two-node input whose grid-path step
moves node 0 from the origin to `(400, 0)`, the fallback path returns the
input unchanged, so the two paths do not agree (not even within any
floating-point tolerance: the positions differ by 400 world units). -/
theorem fallback_grid_disagreement :
    cpu_fallback_step paramsIJ [nodeI, nodeJ] [] = [nodeI, nodeJ] ∧
    physics_step paramsIJ [nodeI, nodeJ] [] ≠
      cpu_fallback_step paramsIJ [nodeI, nodeJ] [] ∧
    ((physics_step paramsIJ [nodeI, nodeJ] []).getD 0 default).x = 400 ∧
    (([nodeI, nodeJ] : List ShaderNodeData).getD 0 default).x = 0 := by
  have hx : ((physics_step paramsIJ [nodeI, nodeJ] []).getD 0 default).x = 400 := by
    rw [stepIJ]; norm_num
  refine ⟨rfl, ?_, hx, by norm_num [nodeI]⟩
  intro h
  have := congrArg (fun l => ((l : List ShaderNodeData).getD 0 default).x) h
  simp only [cpu_fallback_step] at this
  rw [hx] at this
  have h0 : (([nodeI, nodeJ] : List ShaderNodeData).getD 0 default).x = 0 := by
    norm_num [nodeI]
  rw [h0] at this
  norm_num at this
